import Mathlib

/-!
Verification of the duck_and_cover progressive-GAN training code.

The definitions below are a shallow embedding of the Python sources:
tensors are modelled as functions from an index type into `ℚ` (exact
arithmetic stands in for floating point; "numerically identical within
tolerance" is strengthened to exact equality), layers are functions,
shapes are tracked explicitly, and fallible operations return `Option`
or `Except`.  Each definition names the source construct it embeds.
-/

/-- A tensor is a map from an index type to rational values.  Shapes are
tracked separately where they matter. -/
def Tensor (ι : Type) : Type := ι → ℚ

/- ================================================================
   src/networks/modules/stylegan.py, StyleGANSynthesis.forward line 310:
   `return (alpha * straight) + ((1 - alpha) * residual)` — the weighted-sum
   blend of the new-resolution path (`straight`/`new`) with the upsampled
   old-resolution path (`residual`/`old`).
   ================================================================ -/

/-- The fade-in blend `alpha * new + (1 - alpha) * old` applied pointwise to
two same-shaped tensors (stylegan.py line 310). -/
def weightedSum {ι : Type} (alpha : ℚ) (old new : Tensor ι) : Tensor ι :=
  fun i => alpha * new i + (1 - alpha) * old i

/- ================================================================
   src/networks/utils/layers.py, Truncation.update (lines 241-250):
   `self.avg_latent.copy_(self.beta * self.avg_latent + (1.0 - self.beta) * last_avg)`
   ================================================================ -/

/-- `Truncation.update`: the running average latent is replaced by
`beta * avg + (1 - beta) * new` (layers.py lines 248-250). -/
def Truncation.update {ι : Type} (beta : ℚ) (avg_latent last_avg : Tensor ι) :
    Tensor ι :=
  fun i => beta * avg_latent i + (1 - beta) * last_avg i

/-- Iterated application of `Truncation.update` along a stream of
mapping-network outputs, as performed once per training step. -/
def Truncation.iterate {ι : Type} (beta : ℚ) (stream : ℕ → Tensor ι) :
    ℕ → Tensor ι → Tensor ι
  | 0, avg => avg
  | n + 1, avg => Truncation.iterate beta stream n (Truncation.update beta avg (stream n))

/- ================================================================
   src/utils/image_operations.py, adjust_dynamic_range (lines 104-116):
     if drange_in != drange_out:
         scale = (out1 - out0) / (in1 - in0)
         bias = out0 - in0 * scale
         data = data * scale + bias
     return torch.clamp(data, min=out0, max=out1)
   `torch.clamp(x, lo, hi)` computes `min(max(x, lo), hi)` pointwise.
   ================================================================ -/

/-- `adjust_dynamic_range` over exact rationals: an affine remap applied only
when the two ranges differ, followed by a clamp to the output range. -/
def adjust_dynamic_range {ι : Type} (data : Tensor ι)
    (drange_in drange_out : ℚ × ℚ) : Tensor ι :=
  let d : Tensor ι :=
    if drange_in ≠ drange_out then
      let scale := (drange_out.2 - drange_out.1) / (drange_in.2 - drange_in.1)
      let bias := drange_out.1 - drange_in.1 * scale
      fun i => data i * scale + bias
    else data
  fun i => min (max (d i) drange_out.1) drange_out.2

/- ================================================================
   src/train/train_progan.py (lines 29, 64-65):
     TRAIN_STEPS = int(10e3)
     steps = TRAIN_STEPS // batch_size
     alphas = np.linspace(0, 1, steps).tolist()
   `np.linspace(0, 1, n)` returns `n` evenly spaced samples `i/(n-1)`
   (`i = 0..n-1`) with the endpoint included; for `n = 1` it returns `[0]`
   and for `n = 0` the empty list.
   ================================================================ -/

def TRAIN_STEPS : ℕ := 10000

/-- `steps = TRAIN_STEPS // batch_size` (train_progan.py line 64). -/
def phaseSteps (batch_size : ℕ) : ℕ := TRAIN_STEPS / batch_size

/-- `np.linspace(0, 1, n).tolist()` over exact rationals. -/
def linspace01 (n : ℕ) : List ℚ :=
  if n ≤ 1 then List.replicate n 0
  else (List.range n).map (fun i : ℕ => (i : ℚ) / ((n : ℚ) - 1))

/-- The alpha schedule created at fade-in entry (train_progan.py line 65). -/
def alphas (batch_size : ℕ) : List ℚ := linspace01 (phaseSteps batch_size)

/- ================================================================ THEOREMS
   ================================================================ -/

/-- C4: for every pair of same-shaped tensors `old`, `new` and every alpha,
the Weighted Sum blend equals `alpha * new + (1 - alpha) * old` pointwise;
consequently at `alpha = 0` the output is exactly the old-path tensor and at
`alpha = 1` exactly the new-path tensor. -/
theorem weightedSum_blend_and_endpoints {ι : Type} (alpha : ℚ)
    (old new : Tensor ι) :
    (∀ i, weightedSum alpha old new i = alpha * new i + (1 - alpha) * old i) ∧
      weightedSum 0 old new = old ∧ weightedSum 1 old new = new := by
  refine ⟨fun i => rfl, ?_, ?_⟩ <;> funext i <;> simp [weightedSum]

/-- C8: `Truncation.update` replaces the average with
`beta * avg + (1 - beta) * new`; for `beta = 0` the average becomes exactly
the new input at each step, and for `beta = 1` the average never changes,
no matter how many update steps are taken. -/
theorem Truncation.update_ema_endpoints {ι : Type} (beta : ℚ)
    (avg_latent last_avg : Tensor ι) (stream : ℕ → Tensor ι) (n : ℕ) :
    (∀ i, Truncation.update beta avg_latent last_avg i =
        beta * avg_latent i + (1 - beta) * last_avg i) ∧
      Truncation.update 0 avg_latent last_avg = last_avg ∧
      Truncation.update 1 avg_latent last_avg = avg_latent ∧
      Truncation.iterate 1 stream n avg_latent = avg_latent := by
  refine ⟨fun i => rfl, ?_, ?_, ?_⟩
  · funext i; simp [Truncation.update]
  · funext i; simp [Truncation.update]
  · induction n generalizing avg_latent with
    | zero => rfl
    | succ k ih =>
        have hu : Truncation.update (ι := ι) 1 avg_latent (stream k) = avg_latent := by
          funext i; simp [Truncation.update]
        simpa [Truncation.iterate, hu] using ih avg_latent

/-- C10 counterexample: with input ranges `drange_in = (0, 1)` and the
inverted output range `drange_out = (1, 0)`, the component produced from the
input value `0` is `0`, which does not lie within
`[drange_out[0], drange_out[1]] = [1, 0]`. -/
theorem adjust_dynamic_range_not_always_within :
    ¬ ((1 : ℚ) ≤ adjust_dynamic_range (ι := Unit) (fun _ => 0) (0, 1) (1, 0) () ∧
        adjust_dynamic_range (ι := Unit) (fun _ => 0) (0, 1) (1, 0) () ≤ 0) := by
  norm_num [adjust_dynamic_range]

/-- C10 (amended): provided the output range is ordered
(`drange_out[0] ≤ drange_out[1]`) and the input range is non-degenerate
whenever a rescale actually occurs, every component of the result lies within
`[drange_out[0], drange_out[1]]` — even when input components lie outside
`drange_in` — and when `drange_in = drange_out` the data is only clamped,
never rescaled. -/
theorem adjust_dynamic_range_within_range {ι : Type} (data : Tensor ι)
    (drange_in drange_out : ℚ × ℚ)
    (hout : drange_out.1 ≤ drange_out.2)
    (_hin : drange_in ≠ drange_out → drange_in.1 ≠ drange_in.2) :
    (∀ i, drange_out.1 ≤ adjust_dynamic_range data drange_in drange_out i ∧
        adjust_dynamic_range data drange_in drange_out i ≤ drange_out.2) ∧
      (drange_in = drange_out →
        adjust_dynamic_range data drange_in drange_out =
          fun i => min (max (data i) drange_out.1) drange_out.2) := by
  constructor
  · intro i
    simp only [adjust_dynamic_range]
    exact ⟨le_min (le_max_right _ _) hout, min_le_right _ _⟩
  · intro h
    unfold adjust_dynamic_range
    simp [h]

/-- C10 amended-theorem witness at a concrete input. -/
theorem adjust_dynamic_range_within_range_witness :
    ((0 : ℚ) ≤ 1) ∧ (((0 : ℚ), (255 : ℚ)) ≠ ((0 : ℚ), (1 : ℚ)) → (0 : ℚ) ≠ 255) ∧
      (∀ i : Unit, (0 : ℚ) ≤ adjust_dynamic_range (fun _ => 300) (0, 255) (0, 1) i ∧
          adjust_dynamic_range (fun _ => (300 : ℚ)) (0, 255) (0, 1) i ≤ 1) :=
  ⟨by norm_num, by norm_num,
    (adjust_dynamic_range_within_range (fun _ => 300) (0, 255) (0, 1)
      (by norm_num) (by norm_num)).1⟩

/-- C9: every alpha schedule created at fade-in entry (with at least two
configured steps, as is the case for every phase of the training script)
contains exactly one value per configured training step, is linearly spaced
with value `i/(n-1)` at position `i` — hence starts at `0` and ends at `1`
inclusive — and is a monotonically non-decreasing sequence of scalars in
`[0, 1]`. -/
theorem linspace01_alpha_schedule (n : ℕ) (hn : 2 ≤ n) :
    (linspace01 n).length = n ∧
      (∀ i, i < n → (linspace01 n)[i]? = some ((i : ℚ) / ((n : ℚ) - 1))) ∧
      (linspace01 n).head? = some 0 ∧
      (linspace01 n).getLast? = some 1 ∧
      (∀ a ∈ linspace01 n, 0 ≤ a ∧ a ≤ 1) ∧
      (linspace01 n).Sorted (· ≤ ·) := by
  have hn1 : ¬ n ≤ 1 := by omega
  have hnq : (2 : ℚ) ≤ (n : ℚ) := by exact_mod_cast hn
  have hd : (0 : ℚ) < (n : ℚ) - 1 := by linarith
  have hls : linspace01 n =
      (List.range n).map (fun i : ℕ => (i : ℚ) / ((n : ℚ) - 1)) := by
    unfold linspace01
    rw [if_neg hn1]
  rw [hls]
  refine ⟨?_, ?_, ?_, ?_, ?_, ?_⟩
  · rw [List.length_map, List.length_range]
  · intro i hi
    rw [List.getElem?_map, List.getElem?_range hi, Option.map_some']
  · rw [List.head?_eq_getElem?, List.getElem?_map,
      List.getElem?_range (by omega : 0 < n), Option.map_some']
    norm_num
  · rw [List.getLast?_eq_getElem?, List.length_map, List.length_range,
      List.getElem?_map, List.getElem?_range (by omega : n - 1 < n),
      Option.map_some']
    have hcast : ((n - 1 : ℕ) : ℚ) = (n : ℚ) - 1 := by
      have h1 : 1 ≤ n := by omega
      push_cast [h1]
      ring
    rw [hcast, div_self (ne_of_gt hd)]
  · intro a ha
    rcases List.mem_map.1 ha with ⟨i, hi, rfl⟩
    have hi' : i < n := List.mem_range.1 hi
    constructor
    · positivity
    · rw [div_le_one hd]
      have : (i : ℚ) + 1 ≤ (n : ℚ) := by exact_mod_cast hi'
      linarith
  · rw [List.Sorted, List.pairwise_map]
    refine List.Pairwise.imp ?_ (List.sorted_le_range n)
    intro a b hab
    have hab' : (a : ℚ) ≤ (b : ℚ) := by exact_mod_cast hab
    gcongr

/-- C9 witness: the training script's first fade-in phase (batch size 128)
has `10000 // 128 = 78 ≥ 2` steps, so its schedule satisfies the property. -/
theorem linspace01_alpha_schedule_witness :
    2 ≤ phaseSteps 128 ∧
      ((linspace01 (phaseSteps 128)).length = phaseSteps 128 ∧
        (∀ i, i < phaseSteps 128 →
          (linspace01 (phaseSteps 128))[i]? =
            some ((i : ℚ) / ((phaseSteps 128 : ℚ) - 1))) ∧
        (linspace01 (phaseSteps 128)).head? = some 0 ∧
        (linspace01 (phaseSteps 128)).getLast? = some 1 ∧
        (∀ a ∈ linspace01 (phaseSteps 128), 0 ≤ a ∧ a ≤ 1) ∧
        (linspace01 (phaseSteps 128)).Sorted (· ≤ ·)) :=
  ⟨by decide, linspace01_alpha_schedule (phaseSteps 128) (by decide)⟩

/- ================================================================
   src/networks/progan.py, ProGAN history (lines 73-77) and
   ProGAN.train_on_batch (lines 214-234):
     for i in range(n_critic):
         discriminator_minibatch = real_images[i*batch_size:(i+1)*batch_size]
         losses = self.train_discriminator(discriminator_minibatch)
     self.history["D_loss"].append(losses[0])
     self.history["D_loss_positives"].append(losses[1])
     self.history["D_loss_negatives"].append(losses[2])
     self.history["D_loss_dummies"].append(losses[3])
     ...
     self.history["G_loss"].append(self.combined_model.train_on_batch(...))
   The four discriminator appends sit AFTER the critic loop and use the
   `losses` variable left over from its final iteration, so they run once
   per call; the optimisation itself is opaque here, so the scalar losses
   produced by `train_discriminator` and `combined_model.train_on_batch`
   are supplied by oracles.
   ================================================================ -/

/-- The ProGAN loss history (`self.history`, progan.py lines 73-77). -/
structure History where
  D_loss : List ℚ
  D_loss_positives : List ℚ
  D_loss_negatives : List ℚ
  D_loss_dummies : List ℚ
  G_loss : List ℚ

/-- `ProGAN.train_on_batch` history effect.  `dLosses i` is the 4-tuple
(total, positives, negatives, gradient-penalty) returned by the `i`-th
`train_discriminator` call of the critic loop; `gLoss` is the scalar
returned by `combined_model.train_on_batch`.  With `n_critic = 0` the loop
body never runs and the `losses` variable is unbound (a `NameError`),
modelled as `none`. -/
def ProGAN.train_on_batch (n_critic : ℕ) (dLosses : ℕ → ℚ × ℚ × ℚ × ℚ)
    (gLoss : ℚ) (h : History) : Option History :=
  if n_critic = 0 then none
  else
    let losses := dLosses (n_critic - 1)
    some
      { D_loss := h.D_loss ++ [losses.1]
        D_loss_positives := h.D_loss_positives ++ [losses.2.1]
        D_loss_negatives := h.D_loss_negatives ++ [losses.2.2.1]
        D_loss_dummies := h.D_loss_dummies ++ [losses.2.2.2]
        G_loss := h.G_loss ++ [gLoss] }

/-- A training phase of `steps` calls to `ProGAN.train_on_batch`
(the per-step loop of src/train/train_progan.py lines 71-86), with
per-step loss oracles.  Step `s` is applied after steps `0..s-1`. -/
def ProGAN.runPhase (steps n_critic : ℕ) (dLosses : ℕ → ℕ → ℚ × ℚ × ℚ × ℚ)
    (gLoss : ℕ → ℚ) (h : History) : Option History :=
  match steps with
  | 0 => some h
  | s + 1 =>
      (ProGAN.runPhase s n_critic dLosses gLoss h).bind
        (fun h' => ProGAN.train_on_batch n_critic (dLosses s) (gLoss s) h')

/-- C1 counterexample: a completed 10-step fade-in phase with `n_critic = 5`
produces discriminator histories of length 10, not 10 × 5 = 50 — only the
final critic update of each step is recorded. -/
theorem train_on_batch_history_counterexample :
    (ProGAN.runPhase 10 5 (fun _ _ => (0, 0, 0, 0)) (fun _ => 0)
        ⟨[], [], [], [], []⟩).map
        (fun h => (h.D_loss.length, h.D_loss_positives.length,
          h.D_loss_negatives.length, h.D_loss_dummies.length,
          h.G_loss.length)) = some (10, 10, 10, 10, 10) ∧
      (10 : ℕ) ≠ 10 * 5 := by
  exact ⟨rfl, by decide⟩

/-- C1 (amended): for every completed phase of `S` training steps with
`n_critic ≥ 1` discriminator updates per generator update, each of the four
discriminator-loss histories grows by exactly `S` entries (one per step,
recording only the last of the `n_critic` critic updates) and the
generator-loss history grows by exactly `S` entries; in particular a 10-step
fade-in phase yields discriminator histories of length 10 and a generator
history of length 10. -/
theorem runPhase_history_growth (S n_critic : ℕ) (hn : 1 ≤ n_critic)
    (dLosses : ℕ → ℕ → ℚ × ℚ × ℚ × ℚ) (gLoss : ℕ → ℚ) (h : History) :
    ∃ h', ProGAN.runPhase S n_critic dLosses gLoss h = some h' ∧
      h'.D_loss.length = h.D_loss.length + S ∧
      h'.D_loss_positives.length = h.D_loss_positives.length + S ∧
      h'.D_loss_negatives.length = h.D_loss_negatives.length + S ∧
      h'.D_loss_dummies.length = h.D_loss_dummies.length + S ∧
      h'.G_loss.length = h.G_loss.length + S := by
  induction S with
  | zero => exact ⟨h, rfl, by simp, by simp, by simp, by simp, by simp⟩
  | succ s ih =>
      rcases ih with ⟨h', hrun, h1, h2, h3, h4, h5⟩
      have hnz : n_critic ≠ 0 := by omega
      refine ⟨{ D_loss := h'.D_loss ++ [(dLosses s (n_critic - 1)).1]
                D_loss_positives := h'.D_loss_positives ++ [(dLosses s (n_critic - 1)).2.1]
                D_loss_negatives := h'.D_loss_negatives ++ [(dLosses s (n_critic - 1)).2.2.1]
                D_loss_dummies := h'.D_loss_dummies ++ [(dLosses s (n_critic - 1)).2.2.2]
                G_loss := h'.G_loss ++ [gLoss s] }, ?_, ?_, ?_, ?_, ?_, ?_⟩
      · simp only [ProGAN.runPhase]
        rw [hrun]
        show ProGAN.train_on_batch n_critic (dLosses s) (gLoss s) h' = _
        rw [ProGAN.train_on_batch, if_neg hnz]
      all_goals
        simp only [List.length_append, List.length_singleton, h1, h2, h3, h4, h5]
        omega

/-- C1 amended-theorem witness: a concrete 3-step phase with `n_critic = 5`
starting from the empty history. -/
theorem runPhase_history_growth_witness :
    1 ≤ 5 ∧
      ∃ h', ProGAN.runPhase 3 5 (fun _ _ => (1, 2, 3, 4)) (fun _ => 7)
          ⟨[], [], [], [], []⟩ = some h' ∧
        h'.D_loss.length = ([] : List ℚ).length + 3 ∧
        h'.D_loss_positives.length = ([] : List ℚ).length + 3 ∧
        h'.D_loss_negatives.length = ([] : List ℚ).length + 3 ∧
        h'.D_loss_dummies.length = ([] : List ℚ).length + 3 ∧
        h'.G_loss.length = ([] : List ℚ).length + 3 :=
  ⟨by decide,
    runPhase_history_growth 3 5 (by decide) (fun _ _ => (1, 2, 3, 4))
      (fun _ => 7) ⟨[], [], [], [], []⟩⟩

/- ================================================================
   src/networks/utils/layers.py, ScaledDense (lines 50-86),
   ScaledConv2d (lines 148-209):
     gain = gain if gain else np.sqrt(2)
     fan_in = self.in_features                        (dense)
     fan_in = np.prod(self.kernel_size) * self.in_channels  (conv)
     self.gain = gain / np.sqrt(max(1.0, fan_in))
   ScaledDense.forward (lines 81-86):
     bias = self.bias * self.learning_rate_multiplier
     weights = self.weight * self.learning_rate_multiplier
     if self.use_dynamic_wscale:
         return nn.functional.linear(x, weights * self.gain, self.bias)
     return nn.functional.linear(x, weights, bias)
   Note the dynamic branch passes the raw `self.bias`, not the lr-scaled
   local `bias`.  `nn.functional.linear(x, W, b)` computes, per output
   unit o, `(sum_i W[o,i] * x[i]) + b[o]`.
   ================================================================ -/

/-- `gain = gain if gain else np.sqrt(2)`: Python truthiness means both
`None` and `0.0` select the default `sqrt(2)`. -/
noncomputable def resolveGain (gain : Option ℝ) : ℝ :=
  match gain with
  | none => Real.sqrt 2
  | some g => if g = 0 then Real.sqrt 2 else g

/-- The constant weight-scaling factor `self.gain` of a `ScaledDense` layer
with dynamic weight scaling enabled (layers.py lines 76-79):
`gain / sqrt(max(1.0, in_features))`. -/
noncomputable def ScaledDense.gain (gain : Option ℝ) (in_features : ℕ) : ℝ :=
  resolveGain gain / Real.sqrt (max 1 (in_features : ℝ))

/-- The constant weight-scaling factor `self.gain` of a `ScaledConv2d` layer
(layers.py lines 192-195): `fan_in = np.prod(kernel_size) * in_channels`. -/
noncomputable def ScaledConv2d.gain (gain : Option ℝ)
    (in_channels kh kw : ℕ) : ℝ :=
  resolveGain gain / Real.sqrt (max 1 ((kh * kw * in_channels : ℕ) : ℝ))

/-- `ScaledDense.forward` (layers.py lines 81-86), generic over the scalar
field so that concrete evaluations can run over `ℚ`.  `gainF` is the
`self.gain` constant computed at construction. -/
def ScaledDense.forward {K : Type} [Field K] {I O : Type} [Fintype I]
    (use_dynamic_wscale : Bool) (learning_rate_multiplier gainF : K)
    (weight : O → I → K) (biasP : O → K) (x : I → K) : O → K :=
  let bias := fun o => biasP o * learning_rate_multiplier
  let weights := fun o i => weight o i * learning_rate_multiplier
  if use_dynamic_wscale then
    fun o => (∑ i, weights o i * gainF * x i) + biasP o
  else
    fun o => (∑ i, weights o i * x i) + bias o

/-- C6: for every scaled dense or scaled convolution layer with dynamic
weight scaling, the constant rescaling factor equals
`gain / sqrt(max(1, fan_in))` — `fan_in = in_features` for dense layers and
`in_channels * (kernel area)` for convolutions — with `gain` defaulting to
`sqrt 2` when not overridden; and the dynamic forward pass multiplies every
weight by exactly this constant. -/
theorem scaled_layer_gain_spec (g : ℝ) (hg : g ≠ 0)
    (in_features in_channels kh kw : ℕ) (gOpt : Option ℝ)
    {I O : Type} [Fintype I] (lr : ℝ) (weight : O → I → ℝ) (biasP : O → ℝ)
    (x : I → ℝ) (o : O) :
    ScaledDense.gain (some g) in_features =
        g / Real.sqrt (max 1 (in_features : ℝ)) ∧
      ScaledDense.gain none in_features =
        Real.sqrt 2 / Real.sqrt (max 1 (in_features : ℝ)) ∧
      ScaledConv2d.gain (some g) in_channels kh kw =
        g / Real.sqrt (max 1 ((in_channels * (kh * kw) : ℕ) : ℝ)) ∧
      ScaledConv2d.gain none in_channels kh kw =
        Real.sqrt 2 / Real.sqrt (max 1 ((in_channels * (kh * kw) : ℕ) : ℝ)) ∧
      ScaledDense.forward true lr (ScaledDense.gain gOpt in_features)
          weight biasP x o =
        (∑ i, weight o i * lr * ScaledDense.gain gOpt in_features * x i) +
          biasP o := by
  have harea : kh * kw * in_channels = in_channels * (kh * kw) := by ring
  refine ⟨?_, ?_, ?_, ?_, ?_⟩
  · simp [ScaledDense.gain, resolveGain, hg]
  · simp [ScaledDense.gain, resolveGain]
  · simp [ScaledConv2d.gain, resolveGain, hg, harea]
  · simp [ScaledConv2d.gain, resolveGain, harea]
  · simp [ScaledDense.forward]

/-- C6 witness at a concrete layer configuration. -/
theorem scaled_layer_gain_spec_witness :
    (1 : ℝ) ≠ 0 ∧
      (ScaledDense.gain (some 1) 256 = 1 / Real.sqrt (max 1 ((256 : ℕ) : ℝ)) ∧
        ScaledDense.gain none 256 =
          Real.sqrt 2 / Real.sqrt (max 1 ((256 : ℕ) : ℝ)) ∧
        ScaledConv2d.gain (some 1) 512 3 3 =
          1 / Real.sqrt (max 1 ((512 * (3 * 3) : ℕ) : ℝ)) ∧
        ScaledConv2d.gain none 512 3 3 =
          Real.sqrt 2 / Real.sqrt (max 1 ((512 * (3 * 3) : ℕ) : ℝ)) ∧
        ScaledDense.forward true (1 / 100) (ScaledDense.gain none 256)
            (fun (_ : Fin 1) (_ : Fin 2) => 1) (fun _ => 0) (fun _ => 1) 0 =
          (∑ i : Fin 2, (1 : ℝ) * (1 / 100) * ScaledDense.gain none 256 * 1) +
            0) :=
  ⟨by norm_num,
    scaled_layer_gain_spec 1 (by norm_num) 256 512 3 3 none (1 / 100)
      (fun _ _ => 1) (fun _ => 0) (fun _ => 1) 0⟩

/-- C7: evaluation at a failing input.  A `ScaledDense` with dynamic weight
scaling enabled, learning-rate multiplier `1/100`, zero weights, bias `1`
and zero input returns `1`: the bias is added raw in the dynamic branch
(the lr-scaled local `bias` is dead there), whereas with dynamic scaling
disabled the same layer returns the lr-scaled bias `1/100`. -/
theorem scaled_dense_dynamic_bias_unscaled :
    ScaledDense.forward (K := ℚ) (I := Fin 1) (O := Fin 1) true (1 / 100)
        (1 / 2) (fun _ _ => 0) (fun _ => 1) (fun _ => 0) 0 = 1 ∧
      ScaledDense.forward (K := ℚ) (I := Fin 1) (O := Fin 1) false (1 / 100)
        (1 / 2) (fun _ _ => 0) (fun _ => 1) (fun _ => 0) 0 = 1 / 100 ∧
      (1 : ℚ) ≠ 1 / 100 := by
  refine ⟨?_, ?_, by norm_num⟩ <;> simp [ScaledDense.forward]

/- ================================================================
   src/networks/modules/stylegan.py, StyleGANSynthesis (lines 237-310).
   __init__ builds:
     - `self.to_rgb`: a ModuleList with exactly `n_blocks` entries
       (one appended per `block in range(0, n_blocks)`);
     - `self.pro_blocks`: `n_blocks` conv blocks plus one final 1x1 conv,
       so `n_blocks + 1` entries.
   forward(w, block, alpha):
     if block > self.n_blocks: raise ValueError(...)   -- the only guard
     x = self.initial_block(w[:, 0:2])
     if block == 0: return self.to_rgb[0](x)
     for i, pro_block in enumerate(self.pro_blocks[:block], start=1):
         upscaled = self.upsample(x)
         x = pro_block(upscaled, w[:, 2*i:2*i+2])
     residual = self.to_rgb[block - 1](upscaled)
     straight = self.to_rgb[block](x)
     return (alpha * straight) + ((1 - alpha) * residual)
   Layers are abstracted to functions `ℚ → ℚ` of their main input (the
   latent slices and channel counts do not affect control flow);
   out-of-range `ModuleList` indexing raises `IndexError`, modelled via
   `List.getElem?`.
   ================================================================ -/

/-- The two run-time failures of `StyleGANSynthesis.forward`: the explicit
`ValueError` guard, and `IndexError` from out-of-range ModuleList
indexing. -/
inductive SynthError where
  | valueError
  | indexError
deriving DecidableEq

/-- `self.to_rgb` after `StyleGANSynthesis.__init__`: one projection layer
per `block in range(0, n_blocks)` — `n_blocks` entries. -/
def StyleGANSynthesis.to_rgb (n_blocks : ℕ) (toRgbLayer : ℕ → ℚ → ℚ) :
    List (ℚ → ℚ) :=
  (List.range n_blocks).map toRgbLayer

/-- `self.pro_blocks` after `StyleGANSynthesis.__init__`: `n_blocks` conv
blocks followed by the final 1x1 conv — `n_blocks + 1` entries. -/
def StyleGANSynthesis.pro_blocks (n_blocks : ℕ) (blockLayer : ℕ → ℚ → ℚ)
    (finalConv : ℚ → ℚ) : List (ℚ → ℚ) :=
  (List.range n_blocks).map blockLayer ++ [finalConv]

/-- `StyleGANSynthesis.forward` (stylegan.py lines 291-310) over abstract
layer functions.  The fold tracks the pair `(x, upscaled)`. -/
def StyleGANSynthesis.forward (n_blocks : ℕ) (pro_blocks to_rgb : List (ℚ → ℚ))
    (initial_block upsample : ℚ → ℚ) (w : ℚ) (block : ℕ) (alpha : ℚ) :
    Except SynthError ℚ :=
  if block > n_blocks then .error .valueError
  else
    let x0 := initial_block w
    if block = 0 then
      match to_rgb[0]? with
      | some f => .ok (f x0)
      | none => .error .indexError
    else
      let r := (pro_blocks.take block).foldl
        (fun p pb => ((fun u => (pb u, u)) (upsample p.1))) (x0, x0)
      match to_rgb[block - 1]?, to_rgb[block]? with
      | some fr, some fs => .ok (alpha * fs r.1 + (1 - alpha) * fr r.2)
      | _, _ => .error .indexError

/-- C2: evaluation at the failing input.  With `n_blocks = 2`, the
constructed topology's maximum working block index is 1 (`to_rgb` has two
entries): blocks 0 and 1 succeed and block 3 hits the `ValueError` guard,
but block 2 — strictly greater than the maximum valid block — passes the
guard (`block > n_blocks` is false), computes all blocks, and only then
fails with an `IndexError` at `self.to_rgb[2]` instead of a configuration
error raised before any compute. -/
theorem styleGANSynthesis_forward_off_by_one :
    StyleGANSynthesis.forward 2
        (StyleGANSynthesis.pro_blocks 2 (fun _ q => q + 1) id)
        (StyleGANSynthesis.to_rgb 2 (fun k q => q + k)) id (fun q => 2 * q)
        1 0 (1 / 2) = .ok 1 ∧
      StyleGANSynthesis.forward 2
        (StyleGANSynthesis.pro_blocks 2 (fun _ q => q + 1) id)
        (StyleGANSynthesis.to_rgb 2 (fun k q => q + k)) id (fun q => 2 * q)
        1 1 (1 / 2) = .ok 3 ∧
      StyleGANSynthesis.forward 2
        (StyleGANSynthesis.pro_blocks 2 (fun _ q => q + 1) id)
        (StyleGANSynthesis.to_rgb 2 (fun k q => q + k)) id (fun q => 2 * q)
        1 2 (1 / 2) = .error .indexError ∧
      StyleGANSynthesis.forward 2
        (StyleGANSynthesis.pro_blocks 2 (fun _ q => q + 1) id)
        (StyleGANSynthesis.to_rgb 2 (fun k q => q + k)) id (fun q => 2 * q)
        1 3 (1 / 2) = .error .valueError := by
  refine ⟨?_, ?_, ?_, ?_⟩ <;>
    simp [StyleGANSynthesis.forward, StyleGANSynthesis.pro_blocks,
      StyleGANSynthesis.to_rgb, List.range_succ] <;> norm_num

/- ================================================================
   src/networks/progan.py, ProGAN.add_fade_in_layers (lines 253-273) with
   helpers (lines 275-327), and ProGAN.remove_fade_in_layers
   (lines 336-352).

   Generator fade-in model: the straight generator's base conv stack
   produces features `feat`; the old path applies the old "to_rgb_removable"
   projection followed by an UpSampling2D named "upsampling_removable"; the
   new path applies a freshly built chain (upsample, two conv/lrelu/norm
   stages, a new unnamed to-rgb) to `feat`; both meet in a WeightedSum named
   "gen_weighted_sum_removable".

   Discriminator fade-in model: the old path applies "avg_pool_removable"
   then the old input convolution and activation renamed "conv2d_removable"
   and "lrelu_removable"; the new path applies a freshly built chain to the
   input; both meet in a WeightedSum named "dist_weighted_sum_removable",
   whose output feeds the old discriminator's layers from "fuse_here"
   onward (the tail).

   remove_fade_in_layers rebuilds each model by re-applying, sequentially in
   the order of `model.layers[1:]` (Keras's depth-sorted topological
   order), every layer whose name does not contain "removable".  Applying
   the two-input WeightedSum to a single tensor would be a graph error,
   modelled as `none`; all removable layers are skipped, so this never
   happens in the rebuilt chain.

   The Keras `WeightedSum`, `Model` and layer-ordering machinery are not
   under src/ (progan.py imports WeightedSum from networks.utils.layers,
   whose Keras variant is absent); they are modelled from the spec below.
   ================================================================ -/

/-- A named single-input Keras layer, abstracted to its scalar function. -/
abbrev NamedFn := String × (ℚ → ℚ)

/-- A layer as it appears in `model.layers`: an ordinary single-input layer,
or the two-input WeightedSum. -/
inductive KLayer where
  | unary (name : String) (f : ℚ → ℚ)
  | wsum (name : String)

def KLayer.name : KLayer → String
  | .unary n _ => n
  | .wsum n => n

def mkUnary (p : NamedFn) : KLayer := .unary p.1 p.2

/-- Python's `pat in s` substring test. -/
def strContains (s pat : String) : Bool :=
  (List.range (s.length + 1)).any (fun i => pat.toList.isPrefixOf (s.toList.drop i))

/-- `"removable" in layer.name` (progan.py lines 343, 350). -/
def containsRemovable (s : String) : Bool := strContains s "removable"

/-- Sequential application of a chain of named layers. -/
def applyNamed (ls : List NamedFn) (x : ℚ) : ℚ := ls.foldl (fun a p => p.2 a) x

/-- The pruning rebuild loop of `_remove_fade_in_layer_from_generator` /
`_discriminator` (progan.py lines 340-352): walk the layer list, skip every
layer whose name contains "removable", apply the rest sequentially.
Feeding a single tensor to the two-input WeightedSum is a graph error. -/
def applyPruned : List KLayer → ℚ → Option ℚ
  | [], x => some x
  | l :: ls, x =>
      if containsRemovable l.name then applyPruned ls x
      else
        match l with
        | .unary _ f => applyPruned ls (f x)
        | .wsum _ => none

/-- Modelled from the spec: the Keras `WeightedSum` layer (imported by
progan.py from networks.utils.layers, whose Keras variant is not under
src/) "combines two same-shaped tensors as `alpha*new + (1-alpha)*old`". -/
def kerasWeightedSum (alpha old new : ℚ) : ℚ := alpha * new + (1 - alpha) * old

/-- The generator fade-in model's layer list (input layer excluded), in
Keras depth order. -/
def fadeInGeneratorLayers (base : List NamedFn) (toRgbOld : ℚ → ℚ)
    (newPath : List NamedFn) (upsampleOld : ℚ → ℚ) : List KLayer :=
  base.map mkUnary ++ [KLayer.unary "to_rgb_removable" toRgbOld] ++
    newPath.map mkUnary ++
    [KLayer.unary "upsampling_removable" upsampleOld,
      KLayer.wsum "gen_weighted_sum_removable"]

/-- The generator fade-in model's graph semantics (add_fade_in_layers,
progan.py lines 254-257). -/
def fadeInGeneratorForward (base : List NamedFn) (toRgbOld : ℚ → ℚ)
    (newPath : List NamedFn) (upsampleOld : ℚ → ℚ) (alpha x : ℚ) : ℚ :=
  let feat := applyNamed base x
  kerasWeightedSum alpha (upsampleOld (toRgbOld feat)) (applyNamed newPath feat)

/-- The discriminator fade-in model's layer list (input layer excluded). -/
def fadeInDiscriminatorLayers (newPath : List NamedFn)
    (avgPoolOld convOld lreluOld : ℚ → ℚ) (tailL : List NamedFn) :
    List KLayer :=
  [KLayer.unary "avg_pool_removable" avgPoolOld,
    KLayer.unary "conv2d_removable" convOld,
    KLayer.unary "lrelu_removable" lreluOld] ++
    newPath.map mkUnary ++ [KLayer.wsum "dist_weighted_sum_removable"] ++
    tailL.map mkUnary

/-- The discriminator fade-in model's graph semantics (add_fade_in_layers,
progan.py lines 259-269). -/
def fadeInDiscriminatorForward (newPath : List NamedFn)
    (avgPoolOld convOld lreluOld : ℚ → ℚ) (tailL : List NamedFn)
    (alpha x : ℚ) : ℚ :=
  applyNamed tailL
    (kerasWeightedSum alpha (lreluOld (convOld (avgPoolOld x)))
      (applyNamed newPath x))

theorem applyPruned_skip_unary (n : String) (f : ℚ → ℚ) (ls : List KLayer)
    (h : containsRemovable n = true) (x : ℚ) :
    applyPruned (KLayer.unary n f :: ls) x = applyPruned ls x := by
  simp [applyPruned, KLayer.name, h]

theorem applyPruned_skip_wsum (n : String) (ls : List KLayer)
    (h : containsRemovable n = true) (x : ℚ) :
    applyPruned (KLayer.wsum n :: ls) x = applyPruned ls x := by
  simp [applyPruned, KLayer.name, h]

theorem applyPruned_clean_append (ls : List NamedFn) (rest : List KLayer)
    (h : ∀ s ∈ ls.map Prod.fst, containsRemovable s = false) (x : ℚ) :
    applyPruned (ls.map mkUnary ++ rest) x =
      applyPruned rest (applyNamed ls x) := by
  induction ls generalizing x with
  | nil => rfl
  | cons p ps ih =>
      have hp : containsRemovable p.1 = false := h p.1 (by simp)
      have hps : ∀ s ∈ ps.map Prod.fst, containsRemovable s = false :=
        fun s hs => h s (by simp at hs ⊢; exact Or.inr hs)
      simp only [List.map_cons, List.cons_append, applyPruned, mkUnary,
        KLayer.name, hp, Bool.false_eq_true, if_false, applyNamed,
        List.foldl_cons]
      exact ih hps (p.2 x)

theorem applyPruned_clean (ls : List NamedFn)
    (h : ∀ s ∈ ls.map Prod.fst, containsRemovable s = false) (x : ℚ) :
    applyPruned (ls.map mkUnary) x = some (applyNamed ls x) := by
  simpa using applyPruned_clean_append ls [] h x

/-- C3: for every generator and discriminator in a fade-in state and every
input, the pruned model produced by `remove_fade_in_layers` (dropping every
layer whose name contains "removable" and re-applying the rest in layer
order) yields exactly the same output as the un-pruned fade-in variant
evaluated at `alpha = 1` — provided, as Keras auto-naming guarantees, no
base/new-path/tail layer name contains "removable". -/
theorem remove_fade_in_layers_collapse
    (base newPath dNewPath tailL : List NamedFn)
    (toRgbOld upsampleOld avgPoolOld convOld lreluOld : ℚ → ℚ)
    (hg : ∀ s ∈ (base ++ newPath).map Prod.fst, containsRemovable s = false)
    (hd : ∀ s ∈ (dNewPath ++ tailL).map Prod.fst, containsRemovable s = false)
    (x y : ℚ) :
    applyPruned (fadeInGeneratorLayers base toRgbOld newPath upsampleOld) x =
        some (fadeInGeneratorForward base toRgbOld newPath upsampleOld 1 x) ∧
      applyPruned
          (fadeInDiscriminatorLayers dNewPath avgPoolOld convOld lreluOld
            tailL) y =
        some (fadeInDiscriminatorForward dNewPath avgPoolOld convOld lreluOld
          tailL 1 y) := by
  have hws : ∀ o n : ℚ, kerasWeightedSum 1 o n = n := by
    intro o n
    simp [kerasWeightedSum]
  constructor
  · have hbase : ∀ s ∈ base.map Prod.fst, containsRemovable s = false :=
      fun s hs => hg s (by rw [List.map_append]; exact List.mem_append_left _ hs)
    have hnew : ∀ s ∈ newPath.map Prod.fst, containsRemovable s = false :=
      fun s hs => hg s (by rw [List.map_append]; exact List.mem_append_right _ hs)
    unfold fadeInGeneratorLayers
    rw [List.append_assoc, List.append_assoc,
      applyPruned_clean_append base _ hbase, List.singleton_append,
      applyPruned_skip_unary "to_rgb_removable" toRgbOld _ (by decide),
      applyPruned_clean_append newPath _ hnew,
      applyPruned_skip_unary "upsampling_removable" upsampleOld _ (by decide),
      applyPruned_skip_wsum "gen_weighted_sum_removable" _ (by decide)]
    simp [applyPruned, fadeInGeneratorForward, hws]
  · have hdn : ∀ s ∈ dNewPath.map Prod.fst, containsRemovable s = false :=
      fun s hs => hd s (by rw [List.map_append]; exact List.mem_append_left _ hs)
    have htl : ∀ s ∈ tailL.map Prod.fst, containsRemovable s = false :=
      fun s hs => hd s (by rw [List.map_append]; exact List.mem_append_right _ hs)
    unfold fadeInDiscriminatorLayers
    simp only [List.cons_append, List.nil_append, List.append_assoc]
    rw [applyPruned_skip_unary "avg_pool_removable" avgPoolOld _ (by decide),
      applyPruned_skip_unary "conv2d_removable" convOld _ (by decide),
      applyPruned_skip_unary "lrelu_removable" lreluOld _ (by decide),
      applyPruned_clean_append dNewPath _ hdn,
      applyPruned_skip_wsum "dist_weighted_sum_removable" _ (by decide),
      applyPruned_clean tailL htl]
    simp [fadeInDiscriminatorForward, hws]

/-- C3 witness: a concrete two-layer base stack, one-layer new paths and a
one-layer tail. -/
theorem remove_fade_in_layers_collapse_witness :
    (∀ s ∈ (([("scaled_dense_1", fun q : ℚ => q + 1)] ++
        [("up_sampling2d_1", fun q : ℚ => 2 * q)]).map Prod.fst),
      containsRemovable s = false) ∧
      (∀ s ∈ (([("scaled_conv2d_7", fun q : ℚ => q - 1)] ++
          [("fuse_here", fun q : ℚ => 3 * q)]).map Prod.fst),
        containsRemovable s = false) ∧
      (applyPruned
          (fadeInGeneratorLayers [("scaled_dense_1", fun q : ℚ => q + 1)]
            id [("up_sampling2d_1", fun q : ℚ => 2 * q)] id) 5 =
        some (fadeInGeneratorForward [("scaled_dense_1", fun q : ℚ => q + 1)]
          id [("up_sampling2d_1", fun q : ℚ => 2 * q)] id 1 5) ∧
      applyPruned
          (fadeInDiscriminatorLayers [("scaled_conv2d_7", fun q : ℚ => q - 1)]
            id id id [("fuse_here", fun q : ℚ => 3 * q)]) 4 =
        some (fadeInDiscriminatorForward
          [("scaled_conv2d_7", fun q : ℚ => q - 1)] id id id
          [("fuse_here", fun q : ℚ => 3 * q)] 1 4)) :=
  ⟨by decide, by decide,
    remove_fade_in_layers_collapse [("scaled_dense_1", fun q : ℚ => q + 1)]
      [("up_sampling2d_1", fun q : ℚ => 2 * q)]
      [("scaled_conv2d_7", fun q : ℚ => q - 1)]
      [("fuse_here", fun q : ℚ => 3 * q)] id id id id id (by decide)
      (by decide) 5 4⟩

/- ================================================================
   src/networks/utils/layers.py, MinibatchStdDev.forward (lines 22-47):
     b, c, h, w = x.shape
     group_size = min(self.group_size, b)
     y = x.reshape([group_size, -1, nnf, c // nnf, h, w])
     y = y - y.mean(0, keepdim=True)
     y = (y**2).mean(0, keepdim=True)
     y = (y + 1e-8) ** 0.5
     y = y.mean([3, 4, 5], keepdim=True).squeeze(3)
     y = y.expand(group_size, -1, -1, h, w).clone().reshape(b, nnf, h, w)
     z = torch.cat([x, y], dim=1)

   Reshape semantics (row-major): the first reshape infers the `-1`
   dimension `m`, which requires the known-dimension product
   `known = g * nnf * (c // nnf) * h * w` to be positive and to divide
   `b*c*h*w`, with `m = b*c*h*w / known`; otherwise PyTorch raises a
   RuntimeError.  The final `.reshape(b, nnf, h, w)` on the expanded
   `[g, m, nnf, h, w]` tensor additionally requires `g * m = b`.  Together
   (for positive dims) these hold exactly when `nnf ∣ c` and
   `min(group_size, b) ∣ b`, and then the flat-index correspondence is
     y[a0, a1, k, j, p, q] = x[a0*m + a1, k*(c/nnf) + j, p, q],
   so the group reduced over by `mean(0)` is the stride class
   { a1, m + a1, ..., (g-1)*m + a1 } and batch element `i` belongs to the
   group `i % m`.  The float exponent `** 0.5` has no exact rational
   counterpart, so the square root is an abstract parameter `sqrtFn`
   applied pointwise; the claim (shape and replication) holds for every
   such function.
   ================================================================ -/

/-- The per-group appended statistic: mean over channels-per-feature and
space of `sqrtFn(variance + 1e-8)`, where the variance is taken over the
`g` members of group `a1` (the reduction over dimension 0). -/
def MinibatchStdDev.stat (sqrtFn : ℚ → ℚ) (g m cPerF h w : ℕ)
    (x : ℕ → ℕ → ℕ → ℕ → ℚ) (a1 k : ℕ) : ℚ :=
  let e := fun (a0 j p q : ℕ) => x (a0 * m + a1) (k * cPerF + j) p q
  let mean := fun (j p q : ℕ) =>
    (∑ a0 ∈ Finset.range g, e a0 j p q) / (g : ℚ)
  let var := fun (j p q : ℕ) =>
    (∑ a0 ∈ Finset.range g, (e a0 j p q - mean j p q) ^ 2) / (g : ℚ)
  (∑ j ∈ Finset.range cPerF, ∑ p ∈ Finset.range h, ∑ q ∈ Finset.range w,
      sqrtFn (var j p q + 1 / 100000000)) / ((cPerF * h * w : ℕ) : ℚ)

/-- The concatenated result `torch.cat([x, y], dim=1)`: channels `< c` pass
the input through, channels `c + k` carry the group statistic of the
batch element's group `i % m` (constant in `p`, `q`). -/
def MinibatchStdDev.output (sqrtFn : ℚ → ℚ) (g m cPerF c : ℕ) (h w : ℕ)
    (x : ℕ → ℕ → ℕ → ℕ → ℚ) : ℕ → ℕ → ℕ → ℕ → ℚ :=
  fun i ch p q =>
    if ch < c then x i ch p q
    else MinibatchStdDev.stat sqrtFn g m cPerF h w x (i % m) (ch - c)

/-- `MinibatchStdDev.forward`: the output shape and data when both reshapes
are valid, `none` (a RuntimeError) otherwise. -/
def MinibatchStdDev.forward (sqrtFn : ℚ → ℚ)
    (group_size num_new_features b c h w : ℕ) (x : ℕ → ℕ → ℕ → ℕ → ℚ) :
    Option ((ℕ × ℕ × ℕ × ℕ) × (ℕ → ℕ → ℕ → ℕ → ℚ)) :=
  let g := min group_size b
  let cPerF := c / num_new_features
  let known := g * num_new_features * cPerF * h * w
  if 0 < known ∧ known ∣ b * c * h * w ∧ g * (b * c * h * w / known) = b then
    some ((b, c + num_new_features, h, w),
      MinibatchStdDev.output sqrtFn g (b * c * h * w / known) cPerF c h w x)
  else none

/-- C5 counterexample: a batch of 3 samples with `group_size = 2` (batch
larger than the group size but not a multiple of it): the first reshape
fails — `forward` raises instead of returning a `(3, c+1, h, w)` tensor. -/
theorem minibatch_std_dev_counterexample :
    MinibatchStdDev.forward id 2 1 3 1 1 1 (fun _ _ _ _ => 0) = none := by
  norm_num [MinibatchStdDev.forward]

/-- C5 (amended): for every input of positive shape `(b, c, h, w)` with
`num_new_features` dividing `c` and the effective group size
`min(group_size, b)` dividing `b` — which covers `b ≤ group_size`, where
the group collapses to the whole batch — `MinibatchStdDev.forward` returns
a tensor of shape `(b, c + num_new_features, h, w)` whose first `c`
channels pass the input through and whose appended channels carry a
statistic replicated identically across all members of each group (the
batch elements congruent modulo `b / min(group_size, b)`), for every
square-root function.  When `group_size < b` is not a divisor of `b`, the
reshape fails instead (see the counterexample). -/
theorem minibatch_std_dev_forward_spec (sqrtFn : ℚ → ℚ)
    (group_size num_new_features b c h w : ℕ) (x : ℕ → ℕ → ℕ → ℕ → ℚ)
    (hgs : 0 < group_size) (hb : 0 < b) (hc : 0 < c) (hh : 0 < h)
    (hw : 0 < w) (hcd : num_new_features ∣ c) (hbd : min group_size b ∣ b) :
    MinibatchStdDev.forward sqrtFn group_size num_new_features b c h w x =
        some ((b, c + num_new_features, h, w),
          MinibatchStdDev.output sqrtFn (min group_size b)
            (b / min group_size b) (c / num_new_features) c h w x) ∧
      (∀ i i' k p q p' q',
        i % (b / min group_size b) = i' % (b / min group_size b) →
        MinibatchStdDev.output sqrtFn (min group_size b)
            (b / min group_size b) (c / num_new_features) c h w x
            i (c + k) p q =
          MinibatchStdDev.output sqrtFn (min group_size b)
            (b / min group_size b) (c / num_new_features) c h w x
            i' (c + k) p' q') ∧
      (∀ i ch p q, ch < c →
        MinibatchStdDev.output sqrtFn (min group_size b)
            (b / min group_size b) (c / num_new_features) c h w x i ch p q =
          x i ch p q) := by
  have hnnf : 0 < num_new_features := by
    rcases Nat.eq_zero_or_pos num_new_features with h0 | h0
    · have := Nat.eq_zero_of_zero_dvd (h0 ▸ hcd)
      omega
    · exact h0
  have hgpos : 0 < min group_size b := lt_min hgs hb
  have hcPerF : num_new_features * (c / num_new_features) = c :=
    Nat.mul_div_cancel' hcd
  have hknown : min group_size b * num_new_features * (c / num_new_features) *
      h * w = min group_size b * (c * h * w) := by
    calc min group_size b * num_new_features * (c / num_new_features) * h * w
        = min group_size b * (num_new_features * (c / num_new_features)) *
            h * w := by ring
      _ = min group_size b * (c * h * w) := by rw [hcPerF]; ring
  have hm : b * c * h * w /
      (min group_size b * num_new_features * (c / num_new_features) * h * w) =
      b / min group_size b := by
    rw [hknown, show b * c * h * w = b * (c * h * w) from by ring,
      Nat.mul_div_mul_right b (min group_size b)
        (by exact Nat.mul_pos (Nat.mul_pos hc hh) hw)]
  have hcond : 0 < min group_size b * num_new_features *
        (c / num_new_features) * h * w ∧
      (min group_size b * num_new_features * (c / num_new_features) * h * w) ∣
        (b * c * h * w) ∧
      min group_size b * (b * c * h * w /
        (min group_size b * num_new_features * (c / num_new_features) *
          h * w)) = b := by
    refine ⟨?_, ?_, ?_⟩
    · rw [hknown]
      exact Nat.mul_pos hgpos (Nat.mul_pos (Nat.mul_pos hc hh) hw)
    · rw [hknown, show b * c * h * w = b * (c * h * w) from by ring]
      exact mul_dvd_mul_right hbd (c * h * w)
    · rw [hm]
      exact Nat.mul_div_cancel' hbd
  refine ⟨?_, ?_, ?_⟩
  · simp only [MinibatchStdDev.forward]
    rw [if_pos hcond, hm]
  · intro i i' k p q p' q' hmod
    unfold MinibatchStdDev.output
    rw [if_neg (by omega : ¬ (c + k < c)), if_neg (by omega : ¬ (c + k < c)),
      Nat.add_sub_cancel_left, hmod]
  · intro i ch p q hch
    unfold MinibatchStdDev.output
    rw [if_pos hch]

/-- C5 amended-theorem witness: a batch of 2 samples with `group_size = 4`
(the group collapses to the whole batch), one channel, 1×1 space. -/
theorem minibatch_std_dev_forward_spec_witness :
    (0 < 4 ∧ 0 < 2 ∧ 0 < 1 ∧ 1 ∣ 1 ∧ min 4 2 ∣ 2) ∧
      (MinibatchStdDev.forward id 4 1 2 1 1 1 (fun i _ _ _ => (i : ℚ)) =
          some ((2, 1 + 1, 1, 1),
            MinibatchStdDev.output id (min 4 2) (2 / min 4 2) (1 / 1) 1 1 1
              (fun i _ _ _ => (i : ℚ))) ∧
        (∀ i i' k p q p' q', i % (2 / min 4 2) = i' % (2 / min 4 2) →
          MinibatchStdDev.output id (min 4 2) (2 / min 4 2) (1 / 1) 1 1 1
              (fun i _ _ _ => (i : ℚ)) i (1 + k) p q =
            MinibatchStdDev.output id (min 4 2) (2 / min 4 2) (1 / 1) 1 1 1
              (fun i _ _ _ => (i : ℚ)) i' (1 + k) p' q') ∧
        (∀ i ch p q, ch < 1 →
          MinibatchStdDev.output id (min 4 2) (2 / min 4 2) (1 / 1) 1 1 1
              (fun i _ _ _ => (i : ℚ)) i ch p q = (i : ℚ))) :=
  ⟨⟨by decide, by decide, by decide, by decide, by decide⟩,
    minibatch_std_dev_forward_spec id 4 1 2 1 1 1 (fun i _ _ _ => (i : ℚ))
      (by decide) (by decide) (by decide) (by decide) (by decide) (by decide)
      (by decide)⟩
